import Mathlib

/-!
Shallow embedding of the miral NFT bridge (NestJS/ethers source) for
checking the natural-language specification against the code.

Embedded components:
- `AbiFragment` / `Nft` — the duck-typed ABI JSON entries and the registry
  document (src/nft schemas);
- `Web3Service.*` — the per-chain service functions from
  src/src/web3/web3.controller.ts (service part);
- `NftService.*` — the registry collaborator (findOne / create);
- `AppController.*` — the bridge flows login / updateL1Contract /
  getByteCode (deploy-and-register) from src/src/app.controller.ts;
- `Web3Controller.*` — the generic invoke endpoint.

Ledger interactions are modelled by an explicit `Ledger` valuation (what
the external chain answers to `ownerOf` / `tokenURI` / `getCode`) plus a
trace of `ChainCall`s the flow issues; errors thrown by the JS code are
an `Except JsError` result.  An async call used without `await` — the
source does this in `login` — is embedded as a `JsPromise` value whose
JS truthiness is constantly `true` (a Promise object is truthy).
-/

deriving instance DecidableEq for Except

/-- One raw ABI entry as the source manipulates it: a duck-typed JSON object
with a `type` string, an optional `name` (constructor entries carry none)
and a list of declared inputs (only their count is ever used, the list
holds the input type strings). -/
structure AbiFragment where
  type : String
  name : Option String
  inputs : List String
deriving DecidableEq, Repr

/-- The registry document (src/nft/schemas): one binding between an L1
contract address, its mirrored L2 address, the shared ABI and optionally
the bytecode.  `byteCode` is an `Option` because the deploy flow calls
`NftService.create` without a bytecode argument (JS `undefined`). -/
structure Nft where
  l1Address : String
  l2Address : String
  abi : List AbiFragment
  byteCode : Option String
deriving DecidableEq, Repr

/-- The two ledgers of the bridge. -/
inductive Chain
  | L1
  | L2
deriving DecidableEq, Repr

/-- The parsed `chainType` route parameter of the generic invoke endpoint:
the two enum values, or any other integer (the `default` arm of the
source's switch). -/
inductive ChainType
  | L1
  | L2
  | other (raw : Int)
deriving DecidableEq, Repr

/-- One RPC interaction with a ledger: a state-non-mutating read or a
transaction submission (write). -/
inductive ChainCall
  | read (chain : Chain) (contract : String) (fn : String) (args : List String)
  | write (chain : Chain) (contract : String) (fn : String) (args : List String)
deriving DecidableEq, Repr

/-- Whether a call is a transaction submission. -/
def ChainCall.isWrite : ChainCall → Bool
  | .write _ _ _ _ => true
  | .read _ _ _ _ => false

/-- Whether a call touches the L2 ledger (read or write). -/
def ChainCall.onL2 : ChainCall → Bool
  | .read .L2 _ _ _ => true
  | .write .L2 _ _ _ => true
  | _ => false

/-- Errors the JS code can raise: a TypeError from dereferencing a field of
a `null` lookup result, and the `throw new Error(...)` sites of the
source (function lookup, argument-count and constructor-argument
validation). -/
inductive JsError
  | nullDeref (field : String)
  | functionNotFound (name : String)
  | argumentCountMismatch (name : String)
  | invalidConstructorArgs
deriving DecidableEq, Repr

/-- The HTTP-shaped results the controllers build (`statusCode` plus the
`message` of the JSON body; result payload fields are kept in the
per-flow response structures below). -/
structure HttpResponse where
  statusCode : Nat
  message : String
deriving DecidableEq, Repr

/-- The `INVALID_CHAIN_TYPE` constant of web3.controller.ts. -/
def INVALID_CHAIN_TYPE : HttpResponse := ⟨400, "Invalid chain type"⟩

/-- The `UNSUPPORTED_FUNCTION` constant of web3.controller.ts. -/
def UNSUPPORTED_FUNCTION : HttpResponse := ⟨400, "Unsupported function"⟩

/-- The `successfullResult` helper of web3.controller.ts (the call's result
payload itself is not modelled, only that a success response is built). -/
def SUCCESSFULL_RESULT : HttpResponse := ⟨200, "Successfull"⟩

/-- What the external ledger answers: owner and token URI per contract
address and token id, and deployed code per address.  The contracts
behind these answers are outside the repository; the valuation is the
environment a flow runs against. -/
structure Ledger where
  ownerOf : String → Nat → String
  tokenURI : String → Nat → String
  code : String → String

/-- The `ZERO_ADDRESS` constant of web3.service.ts. -/
def ZERO_ADDRESS : String := "0x0000000000000000000000000000000000000000"

/-- A JS Promise as a value: the eventual result of an async call.  The
source's `login` uses `isOwner(...)` without `await`; the variable then
holds the Promise object, not the boolean. -/
structure JsPromise (α : Type) where
  result : α

/-- JS truthiness of a Promise object: an object is always truthy,
whatever the eventual result is. -/
def JsPromise.truthy {α : Type} (_ : JsPromise α) : Bool := true

/-- JS `String.prototype.toLowerCase()` on the ASCII addresses the source
compares: each character mapped to its lower-case form. -/
def jsToLower (s : String) : String :=
  String.mk (s.data.map Char.toLower)

/-- JS `String.prototype.split` with a single-character separator, on the
character list: splitting an empty string yields `[""]`, adjacent
separators yield empty segments, exactly as in JS. -/
def jsSplitList (sep : Char) : List Char → List Char → List String
  | [], acc => [String.mk acc.reverse]
  | c :: rest, acc =>
    if c == sep then String.mk acc.reverse :: jsSplitList sep rest []
    else jsSplitList sep rest (c :: acc)

/-- JS `s.split(sep)` for a one-character separator. -/
def jsSplit (s : String) (sep : Char) : List String :=
  jsSplitList sep s.data []

/-- JS `Array.prototype.join(sep)`. -/
def jsJoin (sep : String) : List String → String
  | [] => ""
  | [s] => s
  | s :: rest => s ++ sep ++ jsJoin sep rest

/-- `Web3Service.supportsFunction` (web3.service.ts): `abi.some(item =>
item.name === functionName)`.  A fragment without a `name` field (the
constructor) never matches; the fragment `type` is not inspected. -/
def Web3Service.supportsFunction (abi : List AbiFragment) (functionName : String) : Bool :=
  abi.any fun item => item.name == some functionName

/-- `Web3Service.isOwner`: reads `ownerOf(token_id)` on the L1 contract and
compares lowercased addresses. -/
def Web3Service.isOwner (l : Ledger) (nftAddress : String) (ownerAddress : String)
    (token_id : Nat) : Bool :=
  jsToLower (l.ownerOf nftAddress token_id) == jsToLower ownerAddress

/-- `Web3Service.getNFTMetadata`: reads `tokenURI(tokenId)`, splits it on
`"/"`, and returns `[baseUri, tokenUri]` — the joined leading segments
and the popped last segment. -/
def Web3Service.getNFTMetadata (l : Ledger) (nftAddress : String) (tokenId : Nat) :
    String × String :=
  let tokenMetadata := l.tokenURI nftAddress tokenId
  let parts := jsSplit tokenMetadata '/'
  let tokenUri := parts.getLastD ""
  let baseUri := jsJoin "/" parts.dropLast
  (baseUri, tokenUri)

/-- `Web3Service.isMinted`: reads `ownerOf(tokenId)` and reports whether
the lowercased owner differs from the lowercased zero address. -/
def Web3Service.isMinted (l : Ledger) (nftAddress : String) (tokenId : Nat) : Bool :=
  !(jsToLower (l.ownerOf nftAddress tokenId) == jsToLower ZERO_ADDRESS)

/-- `Web3Service.callContractFunction`: looks the function up in the ABI by
name, throws `Function ... not found in the ABI.` if absent, throws
`Invalid number of arguments ...` if the argument count differs from the
fragment's declared inputs, and only then performs the contract call
(one RPC on the service's chain; the call's return value is not
modelled, only its issuance). -/
def Web3Service.callContractFunction (ch : Chain) (abi : List AbiFragment)
    (contractAddress : String) (functionName : String) (args : List String) :
    Except JsError Unit × List ChainCall :=
  match abi.find? fun item => item.name == some functionName with
  | none => (.error (.functionNotFound functionName), [])
  | some functionAbi =>
    if args.length != functionAbi.inputs.length then
      (.error (.argumentCountMismatch functionName), [])
    else
      (.ok (), [.write ch contractAddress functionName args])

/-- `Web3Service.deployFromByteCode`: if the ABI declares a constructor
fragment and the argument count differs from its inputs, throws
`Invalid constructor arguments.` before anything else; otherwise builds
the deploy transaction, estimates gas and deploys.  The fresh address
the ledger assigns to the deployment is passed in as `freshAddress`. -/
def Web3Service.deployFromByteCode (ch : Chain) (freshAddress : String)
    (abi : List AbiFragment) (bytecode : String) (constructorArgs : List String) :
    Except JsError String × List ChainCall :=
  match abi.find? fun fragment => fragment.type == "constructor" with
  | some constructorFragment =>
    if constructorArgs.length != constructorFragment.inputs.length then
      (.error .invalidConstructorArgs, [])
    else
      (.ok freshAddress,
        [.read ch freshAddress "estimateGas" constructorArgs,
         .write ch freshAddress "deploy" constructorArgs])
  | none =>
    (.ok freshAddress,
      [.read ch freshAddress "estimateGas" constructorArgs,
       .write ch freshAddress "deploy" constructorArgs])

/-- The descriptor operation of the spec, for comparison with the source:
`constructorArity()` is the declared constructor's input count, and 0
when no constructor fragment is declared. -/
def constructorArity (abi : List AbiFragment) : Nat :=
  match abi.find? fun fragment => fragment.type == "constructor" with
  | some constructorFragment => constructorFragment.inputs.length
  | none => 0

/-- `NftService.findOneByL1Address`. -/
def NftService.findOneByL1Address (reg : List Nft) (l1Address : String) : Option Nft :=
  reg.find? fun n => n.l1Address == l1Address

/-- `NftService.findOneByL2Address`. -/
def NftService.findOneByL2Address (reg : List Nft) (l2Address : String) : Option Nft :=
  reg.find? fun n => n.l2Address == l2Address

/-- `NftService.create`: returns the existing document when one with the
same L1 address is already stored, otherwise saves and returns a new
document.  Result: the returned document and the registry afterwards. -/
def NftService.create (reg : List Nft) (l1Address : String) (l2Address : String)
    (abi : List AbiFragment) (byteCode : Option String) : Nft × List Nft :=
  match reg.find? fun n => n.l1Address == l1Address with
  | some alreadyExists => (alreadyExists, reg)
  | none =>
    let createdNft : Nft := ⟨l1Address, l2Address, abi, byteCode⟩
    (createdNft, reg ++ [createdNft])

/-- The JSON body the login endpoint returns on its 200 response
(`message` plus the `result` fields). -/
structure LoginResponse where
  statusCode : Nat
  message : String
  ownerAddress : String
  L1NftAddress : String
  L2NftAddress : String
  tokenId : Nat
deriving DecidableEq, Repr

/-- The JSON body the update endpoint returns on its 200 response. -/
structure UpdateResponse where
  statusCode : Nat
  message : String
  L2NftAddress : String
  tokenId : Nat
  tokenUri : String
deriving DecidableEq, Repr

/-- The JSON body the deploy endpoint returns on its 200 response. -/
structure DeployResponse where
  statusCode : Nat
  message : String
  L1Address : String
  L2Address : String
deriving DecidableEq, Repr

/-- `AppController.login` (Flow A).  Faithful to the source order:
`findOneByL1Address`, then `isDeployed.l2Address` (a TypeError when the
lookup returned null — this line precedes the `if (isDeployed)` guard),
then `isOwner` WITHOUT `await` (the RPC is fired and the Promise object —
always truthy — is branched on), then metadata read, minted check, and
the mint / setTokenURI submissions when unminted.  Result: the response
or thrown error, plus the trace of chain calls issued. -/
def AppController.login (reg : List Nft) (l1 : Ledger) (l2 : Ledger)
    (owner_address : String) (nft_address : String) (token_id : Nat) :
    Except JsError LoginResponse × List ChainCall :=
  match NftService.findOneByL1Address reg nft_address with
  | none => (.error (.nullDeref "l2Address"), [])
  | some isDeployed =>
    let L2NftContract := isDeployed.l2Address
    let isOwner : JsPromise Bool :=
      ⟨Web3Service.isOwner l1 nft_address owner_address token_id⟩
    let ownerCall := ChainCall.read .L1 nft_address "ownerOf" [toString token_id]
    let response : LoginResponse :=
      ⟨200, "Successfully logged in", owner_address, nft_address, L2NftContract, token_id⟩
    if isOwner.truthy then
      let tokenUri := (Web3Service.getNFTMetadata l1 nft_address token_id).2
      let isMinted := Web3Service.isMinted l2 L2NftContract token_id
      let readCalls := [ownerCall,
        ChainCall.read .L1 nft_address "tokenURI" [toString token_id],
        ChainCall.read .L2 L2NftContract "ownerOf" [toString token_id]]
      if !isMinted then
        (.ok response, readCalls ++
          [ChainCall.write .L2 L2NftContract "mint" [owner_address, toString token_id],
           ChainCall.write .L2 L2NftContract "setTokenURI" [toString token_id, tokenUri]])
      else
        (.ok response, readCalls)
    else
      (.ok response, [ownerCall])

/-- `AppController.updateL1Contract` (Flow B): binding lookup by L2
address; when absent the guard falls through and the handler returns
undefined (`none`, no calls); otherwise read the L2 metadata and push
`setTokenURI` to the bound L1 contract. -/
def AppController.updateL1Contract (reg : List Nft) (l1 : Ledger) (l2 : Ledger)
    (L2NftAddress : String) (tokenId : Nat) :
    Except JsError (Option UpdateResponse) × List ChainCall :=
  match NftService.findOneByL2Address reg L2NftAddress with
  | none => (.ok none, [])
  | some constracts =>
    let tokenUri := (Web3Service.getNFTMetadata l2 L2NftAddress tokenId).2
    (.ok (some ⟨200, "Successfully updated L1 contract", L2NftAddress, tokenId, tokenUri⟩),
      [ChainCall.read .L2 L2NftAddress "tokenURI" [toString tokenId],
       ChainCall.write .L1 constracts.l1Address "setTokenURI" [toString tokenId, tokenUri]])

/-- `AppController.getByteCode` (Flow C, deploy-and-register): read the L1
bytecode, obtain the ABI from the external scanner collaborator
(`scannerAbi`), deploy to L2 (the ledger's fresh address is
`freshL2Address`), then `NftService.create` — called in the source with
no bytecode argument — and respond with the L1 address and the address
just deployed.  The filter registration is an external collaborator and
is not part of the chain-call trace.  Result: response or thrown error,
trace, and the registry afterwards. -/
def AppController.getByteCode (reg : List Nft) (l1 : Ledger) (freshL2Address : String)
    (scannerAbi : List AbiFragment) (nftAddress : String) (constructorArgs : List String) :
    Except JsError DeployResponse × List ChainCall × List Nft :=
  let getCodeCall := ChainCall.read .L1 nftAddress "getCode" []
  let bytecode := l1.code nftAddress
  match Web3Service.deployFromByteCode .L2 freshL2Address scannerAbi bytecode constructorArgs with
  | (.error e, deployCalls) => (.error e, getCodeCall :: deployCalls, reg)
  | (.ok l2Address, deployCalls) =>
    let created := NftService.create reg nftAddress l2Address scannerAbi none
    (.ok ⟨200, "Successfully deployed NFT", nftAddress, l2Address⟩,
      getCodeCall :: deployCalls, created.2)

/-- `Web3Controller._getProviderData`: switch on the chain type; for L1/L2
look the binding up by the matching address and return `contracts.abi`
(a TypeError when the lookup returned null) with the chain's service;
the default arm returns `[null, null]`. -/
def Web3Controller.getProviderData (reg : List Nft) (chainType : ChainType)
    (nftAddress : String) : Except JsError (Option (List AbiFragment) × Option Chain) :=
  match chainType with
  | .L1 =>
    match NftService.findOneByL1Address reg nftAddress with
    | none => .error (.nullDeref "abi")
    | some contracts => .ok (some contracts.abi, some .L1)
  | .L2 =>
    match NftService.findOneByL2Address reg nftAddress with
    | none => .error (.nullDeref "abi")
    | some contracts => .ok (some contracts.abi, some .L2)
  | .other _ => .ok (none, none)

/-- `Web3Controller.callContract` (Flow D, generic invoke): resolve the
provider data; a null ABI yields `INVALID_CHAIN_TYPE`; an unsupported
function name yields `UNSUPPORTED_FUNCTION` with no RPC; otherwise the
call is dispatched through `callContractFunction` (whose thrown errors
propagate uncaught). -/
def Web3Controller.callContract (reg : List Nft) (chainType : ChainType)
    (nftAddress : String) (functionName : String) (args : List String) :
    Except JsError HttpResponse × List ChainCall :=
  match Web3Controller.getProviderData reg chainType nftAddress with
  | .error e => (.error e, [])
  | .ok (none, _) => (.ok INVALID_CHAIN_TYPE, [])
  | .ok (some abi, webService) =>
    if Web3Service.supportsFunction abi functionName then
      match Web3Service.callContractFunction (webService.getD .L1) abi nftAddress
          functionName args with
      | (.error e, calls) => (.error e, calls)
      | (.ok _, calls) => (.ok SUCCESSFULL_RESULT, calls)
    else
      (.ok UNSUPPORTED_FUNCTION, [])

/-- Modelled from the spec: the effect on the external ERC721 contract —
which is not part of this repository — of a confirmed `setTokenURI`
transaction, as §8 describes the round trip: a later `tokenURI` read for
that contract and token returns the URI that was set. -/
def Ledger.setTokenURIEffect (l : Ledger) (contract : String) (tokenId : Nat)
    (uri : String) : Ledger :=
  { l with tokenURI := fun c t => if c == contract && t == tokenId then uri else l.tokenURI c t }

example : jsSplit "a/b" '/' = ["a", "b"] := by decide
example : jsSplit "" '/' = [""] := by decide
example : jsSplit "abc" '/' = ["abc"] := by decide
example : Web3Service.isOwner ⟨fun _ _ => "0xOwner", fun _ _ => "", fun _ => ""⟩
    "0xaaa" "0xoWNER" 5 = true := by decide


/-! ## Claim theorems -/

/-- C1: the claim says a mismatched ownership claim yields `OwnershipRejected`
with no L2 read or write.  The code evaluates `isOwner` without `await` and
branches on the always-truthy Promise object, so at the concrete failing
input below — where the claimed owner is provably not the L1 owner — the
flow still reads the L2 owner, submits `mint` and `setTokenURI` to L2, and
returns the 200 success response. -/
theorem login_unverified_claim_still_hits_l2 :
    Web3Service.isOwner ⟨fun _ _ => "0xOwner", fun _ _ => "u1", fun _ => ""⟩
      "0xaaa" "0xBob" 5 = false ∧
    (AppController.login [⟨"0xaaa", "0xbbb", [], none⟩]
        ⟨fun _ _ => "0xOwner", fun _ _ => "u1", fun _ => ""⟩
        ⟨fun _ _ => ZERO_ADDRESS, fun _ _ => "", fun _ => ""⟩ "0xBob" "0xaaa" 5).1 =
      .ok ⟨200, "Successfully logged in", "0xBob", "0xaaa", "0xbbb", 5⟩ ∧
    ((AppController.login [⟨"0xaaa", "0xbbb", [], none⟩]
        ⟨fun _ _ => "0xOwner", fun _ _ => "u1", fun _ => ""⟩
        ⟨fun _ _ => ZERO_ADDRESS, fun _ _ => "", fun _ => ""⟩ "0xBob" "0xaaa" 5).2.filter
        ChainCall.onL2) =
      [.read .L2 "0xbbb" "ownerOf" ["5"],
       .write .L2 "0xbbb" "mint" ["0xBob", "5"],
       .write .L2 "0xbbb" "setTokenURI" ["5", "u1"]] := by
  decide

/-- C2: for every login request whose binding resolves and whose token is
already minted on L2 (the L2 `ownerOf` answer is not the zero-address
sentinel, i.e. `isMinted` is true), the flow submits no transaction at
all — in particular no `mint` and no `setTokenURI`. -/
theorem login_already_minted_no_l2_write
    (reg : List Nft) (l1 l2 : Ledger) (owner nft : String) (tid : Nat) (b : Nft)
    (hfind : NftService.findOneByL1Address reg nft = some b)
    (hminted : Web3Service.isMinted l2 b.l2Address tid = true) :
    (AppController.login reg l1 l2 owner nft tid).2.filter ChainCall.isWrite = [] := by
  unfold AppController.login
  rw [hfind]
  simp [JsPromise.truthy, hminted, ChainCall.isWrite, List.filter]

/-- C2 witness: a concrete already-minted run of `login` submits no write. -/
theorem login_already_minted_no_l2_write_witness :
    (AppController.login [⟨"0xaaa", "0xbbb", [], none⟩]
        ⟨fun _ _ => "0xCarol", fun _ _ => "u", fun _ => ""⟩
        ⟨fun _ _ => "0xCarol", fun _ _ => "u", fun _ => ""⟩
        "0xCarol" "0xaaa" 5).2.filter ChainCall.isWrite = [] :=
  login_already_minted_no_l2_write _ _ _ _ _ _ ⟨"0xaaa", "0xbbb", [], none⟩
    (by decide) (by decide)

/-- C3: `callContractFunction` fails with the function-not-found error when
the name is absent from the ABI, and with the argument-count-mismatch
error when the argument count differs from the fragment's declared
inputs; in both cases the returned trace is empty — no network call was
issued. -/
theorem callContractFunction_validates_before_rpc
    (ch : Chain) (abi : List AbiFragment) (addr fn : String) (args : List String) :
    (abi.find? (fun item => item.name == some fn) = none →
      Web3Service.callContractFunction ch abi addr fn args =
        (.error (.functionNotFound fn), [])) ∧
    (∀ functionAbi, abi.find? (fun item => item.name == some fn) = some functionAbi →
      args.length ≠ functionAbi.inputs.length →
      Web3Service.callContractFunction ch abi addr fn args =
        (.error (.argumentCountMismatch fn), [])) := by
  constructor
  · intro h
    unfold Web3Service.callContractFunction
    rw [h]
  · intro functionAbi h hlen
    unfold Web3Service.callContractFunction
    rw [h]
    simp [hlen]

/-- C3 witness: both validation failures at concrete inputs, with an empty
trace. -/
theorem callContractFunction_validates_before_rpc_witness :
    Web3Service.callContractFunction .L1 [] "0xa" "foo" [] =
      (.error (.functionNotFound "foo"), []) ∧
    Web3Service.callContractFunction .L1 [⟨"function", some "foo", ["uint256"]⟩]
        "0xa" "foo" [] = (.error (.argumentCountMismatch "foo"), []) :=
  ⟨(callContractFunction_validates_before_rpc .L1 [] "0xa" "foo" []).1 (by decide),
   (callContractFunction_validates_before_rpc .L1 [⟨"function", some "foo", ["uint256"]⟩]
       "0xa" "foo" []).2 ⟨"function", some "foo", ["uint256"]⟩ (by decide) (by decide)⟩

/-- C4 counterexample: with a descriptor declaring no constructor fragment
(so `constructorArity` is 0) and one constructor argument, the argument
count differs from the arity, yet `deployFromByteCode` does not fail —
it proceeds to the gas estimation and deployment calls.  The claimed
"if and only if" is therefore false on the code. -/
theorem deployFromByteCode_missing_constructor_skips_arity_check :
    (["x"] : List String).length ≠ constructorArity [⟨"function", some "foo", []⟩] ∧
    Web3Service.deployFromByteCode .L2 "0xb" [⟨"function", some "foo", []⟩] "0xc" ["x"] =
      (.ok "0xb", [.read .L2 "0xb" "estimateGas" ["x"], .write .L2 "0xb" "deploy" ["x"]]) := by
  decide

/-- C4 amended: `deployFromByteCode` fails with the constructor-argument
error — with an empty trace, so before any network call — exactly when a
constructor fragment is declared and the argument count differs from its
declared inputs; when no constructor fragment is declared there is no
arity check at all.  In particular the deploy-and-register flow with an
empty argument list against a two-argument constructor fails with only
the L1 bytecode read issued, no deployment, and the registry unchanged. -/
theorem deployFromByteCode_arity_check_characterization :
    (∀ (ch : Chain) (fresh : String) (abi : List AbiFragment) (bytecode : String)
        (constructorArgs : List String),
      Web3Service.deployFromByteCode ch fresh abi bytecode constructorArgs =
          (.error .invalidConstructorArgs, []) ↔
        ∃ cf, abi.find? (fun fragment => fragment.type == "constructor") = some cf ∧
          constructorArgs.length ≠ cf.inputs.length) ∧
    (∀ (reg : List Nft) (l1 : Ledger) (fresh : String) (scannerAbi : List AbiFragment)
        (addr : String) (cf : AbiFragment),
      scannerAbi.find? (fun fragment => fragment.type == "constructor") = some cf →
      cf.inputs.length = 2 →
      AppController.getByteCode reg l1 fresh scannerAbi addr [] =
        (.error .invalidConstructorArgs, [.read .L1 addr "getCode" []], reg)) := by
  constructor
  · intro ch fresh abi bytecode constructorArgs
    unfold Web3Service.deployFromByteCode
    cases h : abi.find? fun fragment => fragment.type == "constructor" with
    | none => simp
    | some cf =>
      by_cases hl : constructorArgs.length = cf.inputs.length
      · simp [hl]
      · simp [hl, bne_iff_ne]
  · intro reg l1 fresh scannerAbi addr cf h h2
    unfold AppController.getByteCode Web3Service.deployFromByteCode
    rw [h]
    simp [h2]

/-- C4 witness: the deploy-and-register flow at a concrete two-argument
constructor and empty argument list: the typed failure, only the L1
bytecode read, registry untouched. -/
theorem deployFromByteCode_arity_check_characterization_witness :
    AppController.getByteCode [] ⟨fun _ _ => "", fun _ _ => "", fun _ => "0xc"⟩ "0xb"
        [⟨"constructor", none, ["address", "uint256"]⟩] "0xaaa" [] =
      (.error .invalidConstructorArgs, [.read .L1 "0xaaa" "getCode" []], []) :=
  deployFromByteCode_arity_check_characterization.2 []
    ⟨fun _ _ => "", fun _ _ => "", fun _ => "0xc"⟩ "0xb"
    [⟨"constructor", none, ["address", "uint256"]⟩] "0xaaa"
    ⟨"constructor", none, ["address", "uint256"]⟩ (by decide) (by decide)

/-- C5 counterexample: setting the URI `"a/b"` and reading it back through
`getNFTMetadata` does not return `"a/b"`: the reader splits the stored
value on `"/"` and the flows consume its second component, which here is
`"b"`. -/
theorem setTokenURI_getNFTMetadata_roundtrip_fails_on_slash :
    (Web3Service.getNFTMetadata
        ((⟨fun _ _ => "", fun _ _ => "", fun _ => ""⟩ : Ledger).setTokenURIEffect
          "0xa" 1 "a/b") "0xa" 1).2 ≠ "a/b" ∧
    Web3Service.getNFTMetadata
        ((⟨fun _ _ => "", fun _ _ => "", fun _ => ""⟩ : Ledger).setTokenURIEffect
          "0xa" 1 "a/b") "0xa" 1 = ("a", "b") := by
  decide

/-- Splitting a character list that does not contain the separator yields a
single segment: the whole input appended to the accumulator. -/
theorem jsSplitList_no_sep (sep : Char) (cs : List Char) :
    ∀ (acc : List Char), sep ∉ cs →
      jsSplitList sep cs acc = [String.mk (acc.reverse ++ cs)] := by
  induction cs with
  | nil =>
    intro acc _
    simp [jsSplitList]
  | cons c rest ih =>
    intro acc h
    simp only [List.mem_cons, not_or] at h
    unfold jsSplitList
    rw [if_neg]
    · rw [ih _ h.2]
      simp
    · simp only [beq_iff_eq]
      exact fun hc => h.1 hc.symm

/-- C5 amended: for every contract, token and URI string containing no `/`,
setting the URI and reading it back through `getNFTMetadata` returns the
set URI as the token-URI component (the consumed one) together with an
empty base. -/
theorem setTokenURI_getNFTMetadata_roundtrip_slashless
    (l : Ledger) (contract : String) (tokenId : Nat) (uri : String)
    (h : '/' ∉ uri.data) :
    Web3Service.getNFTMetadata (l.setTokenURIEffect contract tokenId uri)
      contract tokenId = ("", uri) := by
  obtain ⟨d⟩ := uri
  unfold Web3Service.getNFTMetadata Ledger.setTokenURIEffect jsSplit
  simp only [beq_self_eq_true, Bool.and_self, if_true]
  rw [jsSplitList_no_sep '/' d [] h]
  simp [jsJoin]

/-- C5 witness: a concrete slashless URI round-trips unchanged. -/
theorem setTokenURI_getNFTMetadata_roundtrip_slashless_witness :
    Web3Service.getNFTMetadata
        ((⟨fun _ _ => "", fun _ _ => "", fun _ => ""⟩ : Ledger).setTokenURIEffect
          "0xa" 1 "ipfs-cid") "0xa" 1 = ("", "ipfs-cid") :=
  setTokenURI_getNFTMetadata_roundtrip_slashless _ "0xa" 1 "ipfs-cid" (by decide)

/-- C6 counterexample: at concrete requests whose addresses have no
registered binding, `login` raises the null-dereference TypeError (from
reading `l2Address` off the null lookup result) and `updateL1Contract`
returns no content at all — neither produces a typed binding-not-found
result, contradicting the claim. -/
theorem missing_binding_not_typed_error :
    AppController.login [] ⟨fun _ _ => "", fun _ _ => "", fun _ => ""⟩
        ⟨fun _ _ => "", fun _ _ => "", fun _ => ""⟩ "0xo" "0xaaa" 5 =
      (.error (.nullDeref "l2Address"), []) ∧
    AppController.updateL1Contract [] ⟨fun _ _ => "", fun _ _ => "", fun _ => ""⟩
      ⟨fun _ _ => "", fun _ _ => "", fun _ => ""⟩ "0xbbb" 5 = (.ok none, []) := by
  decide

/-- C6 amended: for every request whose address has no registered binding,
`login` raises the null-dereference TypeError before any chain call, and
`updateL1Contract` returns no content with no chain call; neither yields
a typed binding-not-found error (the code has no such result). -/
theorem missing_binding_behavior :
    (∀ (reg : List Nft) (l1 l2 : Ledger) (owner a : String) (tid : Nat),
      NftService.findOneByL1Address reg a = none →
      AppController.login reg l1 l2 owner a tid = (.error (.nullDeref "l2Address"), [])) ∧
    (∀ (reg : List Nft) (l1 l2 : Ledger) (a : String) (tid : Nat),
      NftService.findOneByL2Address reg a = none →
      AppController.updateL1Contract reg l1 l2 a tid = (.ok none, [])) := by
  constructor
  · intro reg l1 l2 owner a tid h
    unfold AppController.login
    rw [h]
  · intro reg l1 l2 a tid h
    unfold AppController.updateL1Contract
    rw [h]

/-- C6 witness: both unregistered-address behaviors at a concrete registry
that holds an unrelated binding. -/
theorem missing_binding_behavior_witness :
    AppController.login [⟨"0xzzz", "0xyyy", [], none⟩]
        ⟨fun _ _ => "", fun _ _ => "", fun _ => ""⟩
        ⟨fun _ _ => "", fun _ _ => "", fun _ => ""⟩ "0xo" "0xaaa" 5 =
      (.error (.nullDeref "l2Address"), []) ∧
    AppController.updateL1Contract [⟨"0xzzz", "0xyyy", [], none⟩]
        ⟨fun _ _ => "", fun _ _ => "", fun _ => ""⟩
        ⟨fun _ _ => "", fun _ _ => "", fun _ => ""⟩ "0xbbb" 5 = (.ok none, []) :=
  ⟨missing_binding_behavior.1 [⟨"0xzzz", "0xyyy", [], none⟩] _ _ "0xo" "0xaaa" 5 (by decide),
   missing_binding_behavior.2 [⟨"0xzzz", "0xyyy", [], none⟩] _ _ "0xbbb" 5 (by decide)⟩

/-- C7: the generic invoke endpoint returns the invalid-chain-type result
(with no registry lookup and no RPC) whenever the chain role is neither
L1 nor L2, and returns the unsupported-function result with no RPC
whenever the role is valid, the binding resolves, and the resolved ABI
does not support the requested name. -/
theorem callContract_invalid_role_and_unsupported_function :
    (∀ (reg : List Nft) (raw : Int) (addr fn : String) (args : List String),
      Web3Controller.callContract reg (.other raw) addr fn args =
        (.ok INVALID_CHAIN_TYPE, [])) ∧
    (∀ (reg : List Nft) (ct : ChainType) (addr fn : String) (args : List String) (b : Nft),
      (ct = ChainType.L1 ∧ NftService.findOneByL1Address reg addr = some b ∨
       ct = ChainType.L2 ∧ NftService.findOneByL2Address reg addr = some b) →
      Web3Service.supportsFunction b.abi fn = false →
      Web3Controller.callContract reg ct addr fn args =
        (.ok UNSUPPORTED_FUNCTION, [])) := by
  constructor
  · intro reg raw addr fn args
    rfl
  · intro reg ct addr fn args b hres hsupp
    rcases hres with ⟨hct, hfind⟩ | ⟨hct, hfind⟩ <;> subst hct <;>
      · unfold Web3Controller.callContract Web3Controller.getProviderData
        rw [hfind]
        simp [hsupp]

/-- C7 witness: both typed results at concrete inputs. -/
theorem callContract_invalid_role_and_unsupported_function_witness :
    Web3Controller.callContract [] (.other 7) "0xaaa" "f" [] =
      (.ok INVALID_CHAIN_TYPE, []) ∧
    Web3Controller.callContract [⟨"0xaaa", "0xbbb", [⟨"function", some "g", []⟩], none⟩]
        .L1 "0xaaa" "f" [] = (.ok UNSUPPORTED_FUNCTION, []) :=
  ⟨callContract_invalid_role_and_unsupported_function.1 [] 7 "0xaaa" "f" [],
   callContract_invalid_role_and_unsupported_function.2
     [⟨"0xaaa", "0xbbb", [⟨"function", some "g", []⟩], none⟩] .L1 "0xaaa" "f" []
     ⟨"0xaaa", "0xbbb", [⟨"function", some "g", []⟩], none⟩
     (Or.inl ⟨rfl, by decide⟩) (by decide)⟩

/-- C8 counterexample: an ABI whose only fragment is the event `Transfer`
— not a function fragment — but `supportsFunction` still reports `true`
for `"Transfer"`, because the source matches on `name` alone and never
inspects the fragment `type`. -/
theorem supportsFunction_counts_event_fragments :
    Web3Service.supportsFunction [⟨"event", some "Transfer", []⟩] "Transfer" = true ∧
    ¬ ∃ f ∈ ([⟨"event", some "Transfer", []⟩] : List AbiFragment),
        f.type = "function" ∧ f.name = some "Transfer" := by
  decide

/-- C8 amended: `supportsFunction` returns true exactly when some fragment
of the descriptor — of any fragment type, events included — carries a
`name` equal (case-sensitively) to the requested name; fragments without
a name, such as the constructor, never match. -/
theorem supportsFunction_name_only_characterization
    (abi : List AbiFragment) (functionName : String) :
    Web3Service.supportsFunction abi functionName = true ↔
      ∃ f ∈ abi, f.name = some functionName := by
  unfold Web3Service.supportsFunction
  simp [List.any_eq_true]

/-- C8 witness: the characterization applied at a concrete descriptor. -/
theorem supportsFunction_name_only_characterization_witness :
    Web3Service.supportsFunction [⟨"function", some "mint", ["address", "uint256"]⟩]
        "mint" = true ↔
      ∃ f ∈ ([⟨"function", some "mint", ["address", "uint256"]⟩] : List AbiFragment),
        f.name = some "mint" :=
  supportsFunction_name_only_characterization
    [⟨"function", some "mint", ["address", "uint256"]⟩] "mint"

/-- C10: for every generic invoke request with a valid chain role whose
address has no registered binding, the endpoint raises the TypeError of
reading `abi` off the null lookup result — no typed response and no RPC. -/
theorem callContract_missing_binding_null_deref :
    (∀ (reg : List Nft) (addr fn : String) (args : List String),
      NftService.findOneByL1Address reg addr = none →
      Web3Controller.callContract reg .L1 addr fn args =
        (.error (.nullDeref "abi"), [])) ∧
    (∀ (reg : List Nft) (addr fn : String) (args : List String),
      NftService.findOneByL2Address reg addr = none →
      Web3Controller.callContract reg .L2 addr fn args =
        (.error (.nullDeref "abi"), [])) := by
  constructor
  · intro reg addr fn args h
    unfold Web3Controller.callContract Web3Controller.getProviderData
    rw [h]
  · intro reg addr fn args h
    unfold Web3Controller.callContract Web3Controller.getProviderData
    rw [h]

/-- C10 witness: both valid roles at a concrete unbound address. -/
theorem callContract_missing_binding_null_deref_witness :
    Web3Controller.callContract [] .L1 "0xaaa" "f" [] =
      (.error (.nullDeref "abi"), []) ∧
    Web3Controller.callContract [] .L2 "0xaaa" "f" [] =
      (.error (.nullDeref "abi"), []) :=
  ⟨callContract_missing_binding_null_deref.1 [] "0xaaa" "f" [] (by decide),
   callContract_missing_binding_null_deref.2 [] "0xaaa" "f" [] (by decide)⟩

/-- C9 counterexample: two deploy-and-register requests for the same L1
address `0xaaa` (the second deployment landing at the fresh address
`0xb2`): the stored binding keeps the first L2 address `0xb1`, but the
second request's response reports `0xb2` — it does not return the
existing binding. -/
theorem deploy_twice_second_response_not_stored_binding :
    (AppController.getByteCode
        (AppController.getByteCode [] ⟨fun _ _ => "", fun _ _ => "", fun _ => "0xc"⟩
          "0xb1" [] "0xaaa" []).2.2
        ⟨fun _ _ => "", fun _ _ => "", fun _ => "0xc"⟩ "0xb2" [] "0xaaa" []).1 =
      .ok ⟨200, "Successfully deployed NFT", "0xaaa", "0xb2"⟩ ∧
    NftService.findOneByL1Address
        (AppController.getByteCode
          (AppController.getByteCode [] ⟨fun _ _ => "", fun _ _ => "", fun _ => "0xc"⟩
            "0xb1" [] "0xaaa" []).2.2
          ⟨fun _ _ => "", fun _ _ => "", fun _ => "0xc"⟩ "0xb2" [] "0xaaa" []).2.2
        "0xaaa" = some ⟨"0xaaa", "0xb1", [], none⟩ ∧
    "0xb2" ≠ "0xb1" := by
  decide

/-- C9 amended: after two deploy-and-register requests for the same,
previously unregistered, L1 address (both deployments succeeding),
exactly one binding is stored for that address, its fields are those of
the first request, the registry `create` of the second request returns
that existing binding unchanged — but the second request's response
reports the address of its own fresh (redundant) deployment. -/
theorem deploy_twice_registry_idempotent
    (reg : List Nft) (l1 l1' : Ledger) (f1 f2 : String) (abi abi' : List AbiFragment)
    (addr : String) (args args' : List String) (c1 c2 : List ChainCall)
    (hnone : NftService.findOneByL1Address reg addr = none)
    (hd1 : Web3Service.deployFromByteCode .L2 f1 abi (l1.code addr) args = (.ok f1, c1))
    (hd2 : Web3Service.deployFromByteCode .L2 f2 abi' (l1'.code addr) args' = (.ok f2, c2)) :
    ((AppController.getByteCode ((AppController.getByteCode reg l1 f1 abi addr args).2.2)
        l1' f2 abi' addr args').2.2 =
      (AppController.getByteCode reg l1 f1 abi addr args).2.2) ∧
    NftService.findOneByL1Address
        ((AppController.getByteCode ((AppController.getByteCode reg l1 f1 abi addr args).2.2)
          l1' f2 abi' addr args').2.2) addr = some ⟨addr, f1, abi, none⟩ ∧
    (((AppController.getByteCode ((AppController.getByteCode reg l1 f1 abi addr args).2.2)
        l1' f2 abi' addr args').2.2).filter fun n => n.l1Address == addr).length = 1 ∧
    (NftService.create ((AppController.getByteCode reg l1 f1 abi addr args).2.2)
        addr f2 abi' none).1 = ⟨addr, f1, abi, none⟩ ∧
    (AppController.getByteCode ((AppController.getByteCode reg l1 f1 abi addr args).2.2)
        l1' f2 abi' addr args').1 = .ok ⟨200, "Successfully deployed NFT", addr, f2⟩ := by
  have hnone' : reg.find? (fun n => n.l1Address == addr) = none := hnone
  have hreg1 : (AppController.getByteCode reg l1 f1 abi addr args).2.2
      = reg ++ [⟨addr, f1, abi, none⟩] := by
    simp only [AppController.getByteCode]
    rw [hd1]
    simp only [NftService.create]
    rw [hnone']
  have hb : (reg ++ [(⟨addr, f1, abi, none⟩ : Nft)]).find? (fun n => n.l1Address == addr)
      = some ⟨addr, f1, abi, none⟩ := by
    rw [List.find?_append, hnone']
    simp [List.find?_singleton]
  have hreg2 : (AppController.getByteCode (reg ++ [(⟨addr, f1, abi, none⟩ : Nft)])
      l1' f2 abi' addr args').2.2 = reg ++ [⟨addr, f1, abi, none⟩] := by
    simp only [AppController.getByteCode]
    rw [hd2]
    simp only [NftService.create]
    rw [hb]
  have hfilter : reg.filter (fun n => n.l1Address == addr) = [] := by
    rw [List.filter_eq_nil_iff]
    exact List.find?_eq_none.mp hnone'
  refine ⟨?_, ?_, ?_, ?_, ?_⟩
  · rw [hreg1, hreg2]
  · rw [hreg1, hreg2]
    exact hb
  · rw [hreg1, hreg2, List.filter_append, hfilter]
    simp
  · rw [hreg1]
    simp only [NftService.create]
    rw [hb]
  · rw [hreg1]
    simp only [AppController.getByteCode]
    rw [hd2]

/-- C9 witness: the stored binding after two concrete deploy requests is
the one created by the first. -/
theorem deploy_twice_registry_idempotent_witness :
    NftService.findOneByL1Address
        ((AppController.getByteCode
          ((AppController.getByteCode [] ⟨fun _ _ => "", fun _ _ => "", fun _ => "0xc"⟩
            "0xb1" [] "0xzz" []).2.2)
          ⟨fun _ _ => "", fun _ _ => "", fun _ => "0xc"⟩ "0xb2" [] "0xzz" []).2.2)
        "0xzz" = some ⟨"0xzz", "0xb1", [], none⟩ :=
  (deploy_twice_registry_idempotent []
    ⟨fun _ _ => "", fun _ _ => "", fun _ => "0xc"⟩
    ⟨fun _ _ => "", fun _ _ => "", fun _ => "0xc"⟩ "0xb1" "0xb2" [] [] "0xzz" [] []
    [.read .L2 "0xb1" "estimateGas" [], .write .L2 "0xb1" "deploy" []]
    [.read .L2 "0xb2" "estimateGas" [], .write .L2 "0xb2" "deploy" []]
    (by decide) (by decide) (by decide)).2.1
